import Mathlib

/-!
Shallow embedding of the Nomada tickets backend (TypeScript/Fastify) and
verification of its specification claims.

Embedded source files:
  - src/services/inMemoryOrderStore.ts  (InMemoryOrderStore: orders Map, processed Set)
  - src/services/orderStore.ts          (Order record shape)
  - src/routes/webhook.ts               (webhook route and handlePaymentIntentSucceeded)
  - src/routes/orders.ts                (GET order QR route)
  - src/routes/checkout.ts              (create-intent validation and route)
  - src/services/pricingService.ts      (calculatePricing, dollarsToCents)

Conventions: JavaScript numbers used for money are embedded as exact
rationals; Math.round (round half toward positive infinity) is jsMathRound;
parseInt returning NaN is embedded as Option Int with none for NaN; async
route handlers are state-passing functions StoreState -> StoreState x Reply;
the external collaborators (Stripe signature verification, QR image
rendering, random token generation, the clock) are explicit parameters.
-/

/-- Order status, from src/services/orderStore.ts: 'valid' | 'used' | 'cancelled'. -/
inductive OrderStatus where
  | valid
  | used
  | cancelled
deriving DecidableEq, Repr

/-- An Order record, from src/services/orderStore.ts. `createdAt` (a JS Date)
is embedded as a Nat timestamp; `femaleQty`/`maleQty` are JS numbers produced
by parseInt and may be NaN, embedded as Option Int with none for NaN. -/
structure Order where
  paymentIntentId : String
  qrToken : String
  status : OrderStatus
  createdAt : Nat
  femaleQty : Option Int
  maleQty : Option Int
deriving DecidableEq, Repr

/-- Lookup in an insertion-ordered association list, embedding
JavaScript Map.get (src/services/inMemoryOrderStore.ts uses a Map). -/
def mapGet : List (String × Order) → String → Option Order
  | [], _ => none
  | (k, v) :: rest, key => if k = key then some v else mapGet rest key

/-- Insertion-ordered association-list update, embedding JavaScript Map.set:
replace the entry at the key if present (keeping its position), otherwise
append a new entry. -/
def mapSet : List (String × Order) → String → Order → List (String × Order)
  | [], key, value => [(key, value)]
  | (k, v) :: rest, key, value =>
      if k = key then (key, value) :: rest else (k, v) :: mapSet rest key value

/-- Embedding of JavaScript Set.add: append the element if absent. -/
def setAdd (l : List String) (x : String) : List String :=
  if x ∈ l then l else l ++ [x]

/-- The InMemoryOrderStore state, from src/services/inMemoryOrderStore.ts:
`orders : Map<string, Order>` and `processedPaymentIntents : Set<string>`. -/
structure StoreState where
  orders : List (String × Order)
  processedPaymentIntents : List String
deriving DecidableEq, Repr

/-- InMemoryOrderStore.saveOrder: `this.orders.set(order.paymentIntentId, order)`. -/
def saveOrder (s : StoreState) (order : Order) : StoreState :=
  { s with orders := mapSet s.orders order.paymentIntentId order }

/-- InMemoryOrderStore.getOrderByPaymentIntentId: `this.orders.get(id) || null`. -/
def getOrderByPaymentIntentId (s : StoreState) (paymentIntentId : String) : Option Order :=
  mapGet s.orders paymentIntentId

/-- InMemoryOrderStore.isPaymentIntentProcessed: `this.processedPaymentIntents.has(id)`. -/
def isPaymentIntentProcessed (s : StoreState) (paymentIntentId : String) : Bool :=
  decide (paymentIntentId ∈ s.processedPaymentIntents)

/-- InMemoryOrderStore.markPaymentIntentProcessed: `this.processedPaymentIntents.add(id)`. -/
def markPaymentIntentProcessed (s : StoreState) (paymentIntentId : String) : StoreState :=
  { s with processedPaymentIntents := setAdd s.processedPaymentIntents paymentIntentId }

/-- Number of entries in the orders list stored under a given key. -/
def keyCount (m : List (String × Order)) (k : String) : Nat :=
  (m.filter (fun p => decide (p.1 = k))).length

/-- The Map representation invariant: keys are pairwise distinct (a JavaScript
Map holds at most one entry per key). -/
def StoreInv (s : StoreState) : Prop :=
  (s.orders.map Prod.fst).Nodup

instance : DecidablePred StoreInv := fun s =>
  inferInstanceAs (Decidable (s.orders.map Prod.fst).Nodup)

/-- Metadata of a Stripe PaymentIntent as accessed by the webhook handler:
only the femaleQty and maleQty keys are read. A missing key (JS undefined)
is none. -/
structure PaymentIntentMetadata where
  femaleQty : Option String
  maleQty : Option String
deriving DecidableEq, Repr

/-- The fields of Stripe.PaymentIntent that the webhook handler reads. -/
structure PaymentIntent where
  id : String
  metadata : PaymentIntentMetadata
deriving DecidableEq, Repr

/-- `event.data` of a Stripe event: the wrapped object, cast by the handler
to a PaymentIntent. -/
structure StripeEventData where
  object : PaymentIntent
deriving DecidableEq, Repr

/-- The fields of Stripe.Event that the webhook route reads. `type` is the
string event tag switched on by the route. -/
structure StripeEvent where
  id : String
  type : String
  data : StripeEventData
deriving DecidableEq, Repr

/-- JavaScript `a || b` for string-or-undefined `a`: undefined and the empty
string are falsy, so both select the default. Used for
`metadata.femaleQty || '0'` in src/routes/webhook.ts. -/
def jsOrString (a : Option String) (b : String) : String :=
  match a with
  | none => b
  | some s => if s = "" then b else s

/-- Accumulate the value of a leading run of decimal digits. -/
def takeDigits : List Char → Nat → Nat
  | c :: rest, acc =>
      if c.isDigit then takeDigits rest (acc * 10 + (c.toNat - 48)) else acc
  | [], acc => acc

/-- Value of the leading digit run, or none when the first character is not
a digit (parseInt then yields NaN). -/
def leadingDigits (cs : List Char) : Option Nat :=
  match cs with
  | c :: _ => if c.isDigit then some (takeDigits cs 0) else none
  | [] => none

/-- JavaScript `parseInt(s, 10)`: skip leading whitespace, read an optional
sign and a run of decimal digits; NaN (none) when no digit follows. -/
def parseIntJS (s : String) : Option Int :=
  let cs := s.data.dropWhile (fun c => c = ' ' ∨ c = '\t' ∨ c = '\n' ∨ c = '\r')
  match cs with
  | '-' :: rest => (leadingDigits rest).map (fun n => -(n : Int))
  | '+' :: rest => (leadingDigits rest).map (fun n => (n : Int))
  | _ => (leadingDigits cs).map (fun n => (n : Int))

/-- handlePaymentIntentSucceeded from src/routes/webhook.ts. The random QR
token (generateQRToken) and the clock (new Date()) are parameters; everything
else follows the source line by line: idempotency check, early return,
mark processed, parse the two metadata quantities with a '0' fallback,
build and save the Order with status 'valid'. -/
def handlePaymentIntentSucceeded (qrToken : String) (now : Nat)
    (s : StoreState) (paymentIntent : PaymentIntent) : StoreState :=
  let paymentIntentId := paymentIntent.id
  if isPaymentIntentProcessed s paymentIntentId then
    s
  else
    let s1 := markPaymentIntentProcessed s paymentIntentId
    let femaleQty := parseIntJS (jsOrString paymentIntent.metadata.femaleQty "0")
    let maleQty := parseIntJS (jsOrString paymentIntent.metadata.maleQty "0")
    saveOrder s1
      { paymentIntentId := paymentIntentId
        qrToken := qrToken
        status := OrderStatus.valid
        createdAt := now
        femaleQty := femaleQty
        maleQty := maleQty }

/-- An HTTP reply: `reply.status(n).send(body)`. -/
structure Reply (β : Type) where
  status : Nat
  body : β
deriving DecidableEq, Repr

/-- Bodies sent by the webhook route: `{ error: msg }` or `{ received: true }`. -/
inductive WebhookBody where
  | errorBody (msg : String)
  | received
deriving DecidableEq, Repr

/-- A webhook HTTP request as the route sees it: the raw body bytes and the
optional stripe-signature header. -/
structure WebhookRequest where
  rawBody : List Nat
  signature : Option String
deriving DecidableEq

/-- The POST /api/webhooks/stripe route from src/routes/webhook.ts.
`verify` embeds verifyWebhookSignature (external Stripe library over the raw
bytes and shared secret): none embeds a verification throw. Missing header
and failed verification answer 400 without touching the store; a verified
payment_intent.succeeded event runs the handler; any other verified event
type is only logged. Both verified paths acknowledge with 200. -/
def webhookPost (verify : List Nat → String → Option StripeEvent)
    (qrToken : String) (now : Nat)
    (s : StoreState) (req : WebhookRequest) : StoreState × Reply WebhookBody :=
  match req.signature with
  | none => (s, ⟨400, WebhookBody.errorBody "Missing stripe-signature header"⟩)
  | some signature =>
    match verify req.rawBody signature with
    | none => (s, ⟨400, WebhookBody.errorBody "Webhook signature verification failed"⟩)
    | some event =>
      if event.type = "payment_intent.succeeded" then
        (handlePaymentIntentSucceeded qrToken now s event.data.object,
         ⟨200, WebhookBody.received⟩)
      else
        (s, ⟨200, WebhookBody.received⟩)

/-- Observable steps of handlePaymentIntentSucceeded, in source order, used
to state the temporal ordering claim. -/
inductive WebhookAction where
  | checkProcessed (paymentIntentId : String) (alreadyProcessed : Bool)
  | markProcessed (paymentIntentId : String)
  | generateToken
  | createOrder (paymentIntentId : String)
deriving DecidableEq, Repr

/-- handlePaymentIntentSucceeded instrumented with the trace of its store and
token effects, in the order the source performs them: the idempotency check
(line 96), markPaymentIntentProcessed (line 105), generateQRToken (line 113),
saveOrder (line 116). -/
def handlePaymentIntentSucceededTrace (qrToken : String) (now : Nat)
    (s : StoreState) (paymentIntent : PaymentIntent) :
    StoreState × List WebhookAction :=
  let paymentIntentId := paymentIntent.id
  if isPaymentIntentProcessed s paymentIntentId then
    (s, [WebhookAction.checkProcessed paymentIntentId true])
  else
    let s1 := markPaymentIntentProcessed s paymentIntentId
    let femaleQty := parseIntJS (jsOrString paymentIntent.metadata.femaleQty "0")
    let maleQty := parseIntJS (jsOrString paymentIntent.metadata.maleQty "0")
    (saveOrder s1
      { paymentIntentId := paymentIntentId
        qrToken := qrToken
        status := OrderStatus.valid
        createdAt := now
        femaleQty := femaleQty
        maleQty := maleQty },
     [WebhookAction.checkProcessed paymentIntentId false,
      WebhookAction.markProcessed paymentIntentId,
      WebhookAction.generateToken,
      WebhookAction.createOrder paymentIntentId])

/-- Whether a character list starts with a given pattern; mirrors
String.startsWith on the underlying characters. -/
def charsStart : List Char → List Char → Bool
  | _, [] => true
  | [], _ :: _ => false
  | c :: cs, d :: ds => c = d && charsStart cs ds

/-- `s.startsWith(pat)` from JavaScript, over the characters of the strings. -/
def strStarts (s pat : String) : Bool :=
  charsStart s.data pat.data

/-- Bodies sent by the order QR route: `{ error: msg }`, `{ status: 'pending' }`,
or `{ status: 'ready', qrToken, qrImageDataUrl }`. -/
inductive OrderQrBody where
  | errorBody (msg : String)
  | pending
  | ready (qrToken : String) (qrImageDataUrl : String)
deriving DecidableEq, Repr

/-- The GET /api/orders/:paymentIntentId/qr route from src/routes/orders.ts.
`render` embeds generateQRCodeDataUrl (external QR library): none embeds a
rendering throw. The route only reads the store, so it returns the state it
was given in every branch: format check (JS falsy test plus startsWith
'pi_'), lookup, pending on miss, render on hit, 500 on render failure. -/
def ordersGetQr (render : String → Option String)
    (s : StoreState) (paymentIntentId : String) : StoreState × Reply OrderQrBody :=
  if paymentIntentId = "" || !(strStarts paymentIntentId "pi_") then
    (s, ⟨400, OrderQrBody.errorBody "Invalid PaymentIntent ID format"⟩)
  else
    match getOrderByPaymentIntentId s paymentIntentId with
    | none => (s, ⟨200, OrderQrBody.pending⟩)
    | some order =>
      match render order.qrToken with
      | some qrImageDataUrl =>
          (s, ⟨200, OrderQrBody.ready order.qrToken qrImageDataUrl⟩)
      | none => (s, ⟨500, OrderQrBody.errorBody "Failed to generate QR code"⟩)

/-! Pricing service (src/services/pricingService.ts). JS number arithmetic on
these dollar amounts is embedded as exact rational arithmetic. -/

/-- FEMALE_TICKET_PRICE = 1.00 CAD. -/
def FEMALE_TICKET_PRICE : ℚ := 1

/-- MALE_TICKET_PRICE = 2.00 CAD. -/
def MALE_TICKET_PRICE : ℚ := 2

/-- FEE_PERCENTAGE = 0.08. -/
def FEE_PERCENTAGE : ℚ := 8 / 100

/-- JavaScript Math.round: round half toward positive infinity. -/
def jsMathRound (x : ℚ) : ℤ :=
  ⌊x + 1 / 2⌋

/-- PricingResult from src/services/pricingService.ts. -/
structure PricingResult where
  subtotal : ℚ
  fee : ℚ
  total : ℚ
deriving DecidableEq, Repr

/-- calculatePricing: subtotal from the per-category prices, fee =
Math.round(subtotal * FEE_PERCENTAGE * 100) / 100, total = subtotal + fee. -/
def calculatePricing (femaleQty maleQty : ℤ) : PricingResult :=
  let subtotal := (femaleQty : ℚ) * FEMALE_TICKET_PRICE + (maleQty : ℚ) * MALE_TICKET_PRICE
  let fee := (jsMathRound (subtotal * FEE_PERCENTAGE * 100) : ℚ) / 100
  let total := subtotal + fee
  { subtotal := subtotal, fee := fee, total := total }

/-- dollarsToCents: Math.round(dollars * 100). -/
def dollarsToCents (dollars : ℚ) : ℤ :=
  jsMathRound (dollars * 100)

/-! Checkout route (src/routes/checkout.ts). -/

/-- The create-intent request body before validation: the two quantities
(z.number().int() makes them integers) and the optional language tag. -/
structure CreateIntentRequest where
  femaleQty : ℤ
  maleQty : ℤ
  language : Option String
deriving DecidableEq, Repr

/-- The body after createIntentSchema validation, with the language default
applied. -/
structure ValidatedIntent where
  femaleQty : ℤ
  maleQty : ℤ
  language : String
deriving DecidableEq, Repr

/-- One entry of the `details` array the route builds from zod issues:
`{ field, message }`. -/
structure FieldIssue where
  field : String
  message : String
deriving DecidableEq, Repr

/-- createIntentSchema.safeParse: min(0) checks with their messages and the
enum check run first; the .refine predicate (at least one ticket) runs only
when the base object parses, and reports with an empty path. -/
def createIntentSchemaParse (b : CreateIntentRequest) :
    Except (List FieldIssue) ValidatedIntent :=
  let baseIssues :=
    (if b.femaleQty < 0 then [⟨"femaleQty", "Female quantity cannot be negative"⟩] else [])
    ++ (if b.maleQty < 0 then [⟨"maleQty", "Male quantity cannot be negative"⟩] else [])
    ++ (match b.language with
        | none => []
        | some l =>
          if l = "en" ∨ l = "es" ∨ l = "pt-BR" then []
          else [⟨"language", "Invalid enum value"⟩])
  if baseIssues = [] then
    if b.femaleQty > 0 ∨ b.maleQty > 0 then
      Except.ok ⟨b.femaleQty, b.maleQty, b.language.getD "en"⟩
    else
      Except.error [⟨"", "At least one ticket must be selected"⟩]
  else
    Except.error baseIssues

/-- The metadata attached to the Stripe PaymentIntent creation call
(string-encoded in the source; carried as values here). -/
structure IntentCreateMetadata where
  femaleQty : ℤ
  maleQty : ℤ
  subtotal : ℚ
  fee : ℚ
  language : String
deriving DecidableEq, Repr

/-- The single call the checkout route can make to the external processor. -/
inductive StripeCall where
  | createPaymentIntent (amount : ℤ) (currency : String) (metadata : IntentCreateMetadata)
deriving DecidableEq, Repr

/-- Bodies sent by the create-intent route. -/
inductive CheckoutBody where
  | validationFailed (details : List FieldIssue)
  | ok (clientSecret : String) (paymentIntentId : String)
       (subtotal : ℚ) (fee : ℚ) (total : ℚ)
  | paymentServiceError
deriving DecidableEq, Repr

/-- POST /api/checkout/create-intent from src/routes/checkout.ts.
`stripeCreate` embeds the outcome of stripe.paymentIntents.create: some
(clientSecret, paymentIntentId) on success, none when the call throws (the
route then answers 500). The first component of the result records the
processor call made, none when the processor was never called. -/
def checkoutCreateIntent (stripeCreate : Option (String × String))
    (body : CreateIntentRequest) : Option StripeCall × Reply CheckoutBody :=
  match createIntentSchemaParse body with
  | Except.error issues =>
      (none, ⟨400, CheckoutBody.validationFailed issues⟩)
  | Except.ok v =>
      let pricing := calculatePricing v.femaleQty v.maleQty
      let amountInCents := dollarsToCents pricing.total
      let call := StripeCall.createPaymentIntent amountInCents "cad"
        ⟨v.femaleQty, v.maleQty, pricing.subtotal, pricing.fee, v.language⟩
      match stripeCreate with
      | some (clientSecret, paymentIntentId) =>
          (some call,
           ⟨200, CheckoutBody.ok clientSecret paymentIntentId
             pricing.subtotal pricing.fee pricing.total⟩)
      | none =>
          (some call, ⟨500, CheckoutBody.paymentServiceError⟩)

/-! Association-list lemmas shared by the store claims. -/

/-- Updating a key and then reading it gives the written value. -/
theorem mapGet_mapSet_self (m : List (String × Order)) (k : String) (v : Order) :
    mapGet (mapSet m k v) k = some v := by
  induction m with
  | nil => simp [mapSet, mapGet]
  | cons hd tl ih =>
    obtain ⟨k₁, v₁⟩ := hd
    by_cases h : k₁ = k
    · simp [mapSet, mapGet, h]
    · simp [mapSet, mapGet, h, ih]

/-- Updating one key leaves reads of every other key unchanged. -/
theorem mapGet_mapSet_ne (m : List (String × Order)) (k k₂ : String) (v : Order)
    (h : k₂ ≠ k) : mapGet (mapSet m k v) k₂ = mapGet m k₂ := by
  have h₀ : ¬(k = k₂) := fun h₂ => h h₂.symm
  induction m with
  | nil => simp [mapSet, mapGet, h₀]
  | cons hd tl ih =>
    obtain ⟨k₁, v₁⟩ := hd
    by_cases h₁ : k₁ = k
    · subst h₁
      simp [mapSet, mapGet, h₀]
    · by_cases h₂ : k₁ = k₂ <;> simp [mapSet, mapGet, h₁, h₂, h, ih]

/-- A key absent from the list has entry count zero. -/
theorem keyCount_eq_zero_of_not_mem (m : List (String × Order)) (k : String)
    (h : k ∉ m.map Prod.fst) : keyCount m k = 0 := by
  induction m with
  | nil => rfl
  | cons hd tl ih =>
    obtain ⟨k₁, v₁⟩ := hd
    simp only [List.map_cons, List.mem_cons, not_or] at h
    have h₁ : ¬(k₁ = k) := fun h₂ => h.1 h₂.symm
    have htail : keyCount tl k = 0 := ih h.2
    simp only [keyCount, List.filter_cons, decide_eq_true_eq, if_neg h₁] at htail ⊢
    exact htail

/-- A key whose lookup misses has entry count zero. -/
theorem keyCount_eq_zero_of_mapGet_none (m : List (String × Order)) (k : String)
    (h : mapGet m k = none) : keyCount m k = 0 := by
  induction m with
  | nil => rfl
  | cons hd tl ih =>
    obtain ⟨k₁, v₁⟩ := hd
    by_cases h₁ : k₁ = k
    · simp [mapGet, h₁] at h
    · simp only [mapGet, if_neg h₁] at h
      have htail : keyCount tl k = 0 := ih h
      simp only [keyCount, List.filter_cons, decide_eq_true_eq, if_neg h₁] at htail ⊢
      exact htail

/-- Writing a previously missing key yields exactly one entry at that key. -/
theorem keyCount_mapSet_of_none (m : List (String × Order)) (k : String) (v : Order)
    (h : mapGet m k = none) : keyCount (mapSet m k v) k = 1 := by
  induction m with
  | nil => simp [mapSet, keyCount]
  | cons hd tl ih =>
    obtain ⟨k₁, v₁⟩ := hd
    by_cases h₁ : k₁ = k
    · simp [mapGet, h₁] at h
    · simp only [mapGet, if_neg h₁] at h
      have htail : keyCount (mapSet tl k v) k = 1 := ih h
      simp only [mapSet, if_neg h₁, keyCount, List.filter_cons, decide_eq_true_eq,
        if_neg h₁] at htail ⊢
      exact htail

/-- Every key of the updated list is the written key or a key of the
original list. -/
theorem mem_keys_mapSet (m : List (String × Order)) (k a : String) (v : Order)
    (h : a ∈ (mapSet m k v).map Prod.fst) : a = k ∨ a ∈ m.map Prod.fst := by
  induction m with
  | nil => simpa [mapSet] using h
  | cons hd tl ih =>
    obtain ⟨k₁, v₁⟩ := hd
    by_cases h₁ : k₁ = k
    · simp only [mapSet, if_pos h₁, List.map_cons, List.mem_cons] at h
      rcases h with h | h
      · exact Or.inl h
      · exact Or.inr (by simp [h])
    · simp only [mapSet, if_neg h₁, List.map_cons, List.mem_cons] at h
      rcases h with h | h
      · exact Or.inr (by simp [h])
      · rcases ih h with h₂ | h₂
        · exact Or.inl h₂
        · exact Or.inr (by simp [h₂])

/-- Map.set preserves distinctness of keys. -/
theorem nodup_keys_mapSet (m : List (String × Order)) (k : String) (v : Order)
    (h : (m.map Prod.fst).Nodup) : ((mapSet m k v).map Prod.fst).Nodup := by
  induction m with
  | nil => simp [mapSet]
  | cons hd tl ih =>
    obtain ⟨k₁, v₁⟩ := hd
    rw [List.map_cons, List.nodup_cons] at h
    by_cases h₁ : k₁ = k
    · subst h₁
      rw [mapSet, if_pos rfl, List.map_cons, List.nodup_cons]
      exact ⟨h.1, h.2⟩
    · rw [mapSet, if_neg h₁, List.map_cons, List.nodup_cons]
      refine ⟨fun hmem => ?_, ih h.2⟩
      rcases mem_keys_mapSet tl k k₁ v hmem with h₂ | h₂
      · exact h₁ h₂
      · exact h.1 h₂

/-- Distinct keys bound the entry count at every key by one. -/
theorem keyCount_le_one_of_nodup (m : List (String × Order)) (k : String)
    (h : (m.map Prod.fst).Nodup) : keyCount m k ≤ 1 := by
  induction m with
  | nil => simp [keyCount]
  | cons hd tl ih =>
    obtain ⟨k₁, v₁⟩ := hd
    rw [List.map_cons, List.nodup_cons] at h
    by_cases h₁ : k₁ = k
    · subst h₁
      have hz : keyCount tl k₁ = 0 := keyCount_eq_zero_of_not_mem tl k₁ h.1
      simp only [keyCount] at hz
      simp [keyCount, List.filter_cons, hz]
    · have htail : keyCount tl k ≤ 1 := ih h.2
      simp only [keyCount, List.filter_cons, decide_eq_true_eq, if_neg h₁] at htail ⊢
      exact htail

/-! Store and handler lemmas shared by the webhook claims. -/

/-- Marking an identifier makes the idempotency check answer true. -/
theorem isPaymentIntentProcessed_mark_self (s : StoreState) (pid : String) :
    isPaymentIntentProcessed (markPaymentIntentProcessed s pid) pid = true := by
  by_cases hmem : pid ∈ s.processedPaymentIntents <;>
    simp [isPaymentIntentProcessed, markPaymentIntentProcessed, setAdd, hmem]

/-- saveOrder leaves the processed-marker set untouched. -/
theorem processed_saveOrder (s : StoreState) (o : Order) :
    (saveOrder s o).processedPaymentIntents = s.processedPaymentIntents := rfl

/-- markPaymentIntentProcessed leaves the orders map untouched. -/
theorem orders_mark (s : StoreState) (pid : String) :
    (markPaymentIntentProcessed s pid).orders = s.orders := rfl

/-- The Order record the webhook handler builds for a payment intent (same
record as in handlePaymentIntentSucceeded, named for use in statements). -/
def webhookOrder (qrToken : String) (now : Nat) (paymentIntent : PaymentIntent) : Order :=
  { paymentIntentId := paymentIntent.id
    qrToken := qrToken
    status := OrderStatus.valid
    createdAt := now
    femaleQty := parseIntJS (jsOrString paymentIntent.metadata.femaleQty "0")
    maleQty := parseIntJS (jsOrString paymentIntent.metadata.maleQty "0") }

/-- On a not-yet-processed identifier the handler marks it and saves the
built order. -/
theorem handle_not_processed (qrToken : String) (now : Nat) (s : StoreState)
    (pi : PaymentIntent) (h : isPaymentIntentProcessed s pi.id = false) :
    handlePaymentIntentSucceeded qrToken now s pi
      = saveOrder (markPaymentIntentProcessed s pi.id) (webhookOrder qrToken now pi) := by
  simp [handlePaymentIntentSucceeded, h, webhookOrder]

/-- On an already-processed identifier the handler is the identity. -/
theorem handle_processed (qrToken : String) (now : Nat) (s : StoreState)
    (pi : PaymentIntent) (h : isPaymentIntentProcessed s pi.id = true) :
    handlePaymentIntentSucceeded qrToken now s pi = s := by
  simp [handlePaymentIntentSucceeded, h]

/-- After the handler runs, the identifier is marked processed. -/
theorem isProcessed_after_handle (qrToken : String) (now : Nat) (s : StoreState)
    (pi : PaymentIntent) (h : isPaymentIntentProcessed s pi.id = false) :
    isPaymentIntentProcessed (handlePaymentIntentSucceeded qrToken now s pi) pi.id = true := by
  rw [handle_not_processed qrToken now s pi h]
  show isPaymentIntentProcessed (markPaymentIntentProcessed s pi.id) pi.id = true
  exact isPaymentIntentProcessed_mark_self s pi.id

/-- Running the handler twice on the same payment intent equals running it
once: the second run observes the processed marker and returns the state
unchanged. -/
theorem handle_handle (tok₁ tok₂ : String) (now₁ now₂ : Nat) (s : StoreState)
    (pi : PaymentIntent) :
    handlePaymentIntentSucceeded tok₂ now₂ (handlePaymentIntentSucceeded tok₁ now₁ s pi) pi
      = handlePaymentIntentSucceeded tok₁ now₁ s pi := by
  by_cases h : isPaymentIntentProcessed s pi.id = true
  · rw [handle_processed tok₁ now₁ s pi h, handle_processed tok₂ now₂ s pi h]
  · have h₀ : isPaymentIntentProcessed s pi.id = false := by
      revert h
      cases isPaymentIntentProcessed s pi.id <;> simp
    exact handle_processed tok₂ now₂ _ pi
      (isProcessed_after_handle tok₁ now₁ s pi h₀)

/-- A webhook request that presents a signature the verifier accepts reduces
to the event handler (for payment_intent.succeeded) with a 200
acknowledgment. -/
theorem webhookPost_succeeded_eq (verify : List Nat → String → Option StripeEvent)
    (qrToken : String) (now : Nat) (s : StoreState) (req : WebhookRequest)
    (sig : String) (ev : StripeEvent)
    (hsig : req.signature = some sig)
    (hver : verify req.rawBody sig = some ev)
    (hty : ev.type = "payment_intent.succeeded") :
    webhookPost verify qrToken now s req
      = (handlePaymentIntentSucceeded qrToken now s ev.data.object,
         ⟨200, WebhookBody.received⟩) := by
  simp [webhookPost, hsig, hver, hty]

/-! Concrete fixtures used by the witness theorems. -/

/-- A concrete payment_intent.succeeded event for the fixture intent. -/
def testEvent : StripeEvent :=
  ⟨"evt_1", "payment_intent.succeeded", ⟨⟨"pi_test_1", ⟨some "2", some "1"⟩⟩⟩⟩

/-- A fixture verifier accepting exactly one signature value. -/
def testVerify : List Nat → String → Option StripeEvent :=
  fun _ sig => if sig = "valid-signature" then some testEvent else none

/-- A fixture webhook request carrying the accepted signature. -/
def testReq : WebhookRequest := ⟨[123, 125], some "valid-signature"⟩

/-- The store in its initial state: no orders, no processed markers. -/
def emptyStore : StoreState := ⟨[], []⟩

/-- C1: delivering the same correctly signed payment_intent.succeeded
notification twice, for an identifier fresh in the initial state, leaves
the store after the second delivery equal to the store after the first
(idempotence), acknowledges the second delivery with 200, and leaves
exactly one Order stored under the identifier. -/
theorem webhook_duplicate_delivery_idempotent
    (verify : List Nat → String → Option StripeEvent)
    (tok₁ tok₂ : String) (now₁ now₂ : Nat) (s : StoreState) (req : WebhookRequest)
    (sig : String) (ev : StripeEvent)
    (hsig : req.signature = some sig)
    (hver : verify req.rawBody sig = some ev)
    (hty : ev.type = "payment_intent.succeeded")
    (hproc : isPaymentIntentProcessed s ev.data.object.id = false)
    (horder : getOrderByPaymentIntentId s ev.data.object.id = none) :
    (webhookPost verify tok₂ now₂ (webhookPost verify tok₁ now₁ s req).1 req).1
        = (webhookPost verify tok₁ now₁ s req).1
    ∧ (webhookPost verify tok₂ now₂ (webhookPost verify tok₁ now₁ s req).1 req).2
        = ⟨200, WebhookBody.received⟩
    ∧ keyCount (webhookPost verify tok₁ now₁ s req).1.orders ev.data.object.id = 1 := by
  have e₁ := webhookPost_succeeded_eq verify tok₁ now₁ s req sig ev hsig hver hty
  have e₂ := webhookPost_succeeded_eq verify tok₂ now₂
    (webhookPost verify tok₁ now₁ s req).1 req sig ev hsig hver hty
  refine ⟨?_, ?_, ?_⟩
  · rw [e₂, e₁]
    exact handle_handle tok₁ tok₂ now₁ now₂ s ev.data.object
  · rw [e₂]
  · rw [e₁]
    show keyCount (handlePaymentIntentSucceeded tok₁ now₁ s ev.data.object).orders
      ev.data.object.id = 1
    rw [handle_not_processed tok₁ now₁ s ev.data.object hproc]
    exact keyCount_mapSet_of_none s.orders ev.data.object.id
      (webhookOrder tok₁ now₁ ev.data.object) horder

/-- C1 witness: the theorem instantiated at the fixture verifier, request,
event and the empty store. -/
theorem webhook_duplicate_delivery_idempotent_witness :
    (testReq.signature = some "valid-signature"
      ∧ testVerify testReq.rawBody "valid-signature" = some testEvent
      ∧ testEvent.type = "payment_intent.succeeded"
      ∧ isPaymentIntentProcessed emptyStore testEvent.data.object.id = false
      ∧ getOrderByPaymentIntentId emptyStore testEvent.data.object.id = none)
    ∧ ((webhookPost testVerify "tokB" 20
          (webhookPost testVerify "tokA" 10 emptyStore testReq).1 testReq).1
        = (webhookPost testVerify "tokA" 10 emptyStore testReq).1
      ∧ (webhookPost testVerify "tokB" 20
          (webhookPost testVerify "tokA" 10 emptyStore testReq).1 testReq).2
        = ⟨200, WebhookBody.received⟩
      ∧ keyCount (webhookPost testVerify "tokA" 10 emptyStore testReq).1.orders
          testEvent.data.object.id = 1) :=
  ⟨⟨rfl, by decide, rfl, by decide, rfl⟩,
   webhook_duplicate_delivery_idempotent testVerify "tokA" "tokB" 10 20 emptyStore
     testReq "valid-signature" testEvent rfl (by decide) rfl (by decide) rfl⟩

/-- C2: a correctly signed payment_intent.succeeded notification for a fresh
identifier creates exactly one Order under that identifier, and a subsequent
store lookup returns exactly the Order the handler built. -/
theorem webhook_fresh_delivery_creates_order
    (verify : List Nat → String → Option StripeEvent)
    (qrToken : String) (now : Nat) (s : StoreState) (req : WebhookRequest)
    (sig : String) (ev : StripeEvent)
    (hsig : req.signature = some sig)
    (hver : verify req.rawBody sig = some ev)
    (hty : ev.type = "payment_intent.succeeded")
    (hproc : isPaymentIntentProcessed s ev.data.object.id = false)
    (horder : getOrderByPaymentIntentId s ev.data.object.id = none) :
    getOrderByPaymentIntentId (webhookPost verify qrToken now s req).1 ev.data.object.id
        = some (webhookOrder qrToken now ev.data.object)
    ∧ keyCount (webhookPost verify qrToken now s req).1.orders ev.data.object.id = 1 := by
  have e₁ := webhookPost_succeeded_eq verify qrToken now s req sig ev hsig hver hty
  rw [e₁]
  constructor
  · show getOrderByPaymentIntentId (handlePaymentIntentSucceeded qrToken now s ev.data.object)
      ev.data.object.id = some (webhookOrder qrToken now ev.data.object)
    rw [handle_not_processed qrToken now s ev.data.object hproc]
    exact mapGet_mapSet_self s.orders ev.data.object.id (webhookOrder qrToken now ev.data.object)
  · show keyCount (handlePaymentIntentSucceeded qrToken now s ev.data.object).orders
      ev.data.object.id = 1
    rw [handle_not_processed qrToken now s ev.data.object hproc]
    exact keyCount_mapSet_of_none s.orders ev.data.object.id
      (webhookOrder qrToken now ev.data.object) horder

/-- C2 witness: the theorem instantiated at the fixture inputs; the stored
order carries the parsed quantities 2 and 1. -/
theorem webhook_fresh_delivery_creates_order_witness :
    (testReq.signature = some "valid-signature"
      ∧ testVerify testReq.rawBody "valid-signature" = some testEvent
      ∧ testEvent.type = "payment_intent.succeeded"
      ∧ isPaymentIntentProcessed emptyStore testEvent.data.object.id = false
      ∧ getOrderByPaymentIntentId emptyStore testEvent.data.object.id = none)
    ∧ (getOrderByPaymentIntentId (webhookPost testVerify "tokA" 10 emptyStore testReq).1
          testEvent.data.object.id = some (webhookOrder "tokA" 10 testEvent.data.object)
      ∧ keyCount (webhookPost testVerify "tokA" 10 emptyStore testReq).1.orders
          testEvent.data.object.id = 1) :=
  ⟨⟨rfl, by decide, rfl, by decide, rfl⟩,
   webhook_fresh_delivery_creates_order testVerify "tokA" 10 emptyStore testReq
     "valid-signature" testEvent rfl (by decide) rfl (by decide) rfl⟩

/-- C3: a webhook request with a missing signature header, or one whose
signature verification fails, is answered with status 400 and the store is
exactly the store from before the request. -/
theorem webhook_bad_signature_no_state_change
    (verify : List Nat → String → Option StripeEvent)
    (qrToken : String) (now : Nat) (s : StoreState) (req : WebhookRequest)
    (h : req.signature = none
      ∨ ∃ sig, req.signature = some sig ∧ verify req.rawBody sig = none) :
    (webhookPost verify qrToken now s req).1 = s
    ∧ (webhookPost verify qrToken now s req).2.status = 400 := by
  rcases h with h | ⟨sig, hsig, hver⟩
  · constructor <;> simp [webhookPost, h]
  · constructor <;> simp [webhookPost, hsig, hver]

/-- C3 witness: a request with no stripe-signature header against the fixture
verifier and the empty store. -/
theorem webhook_bad_signature_no_state_change_witness :
    ((⟨[123, 125], none⟩ : WebhookRequest).signature = none)
    ∧ ((webhookPost testVerify "tokA" 10 emptyStore ⟨[123, 125], none⟩).1 = emptyStore
      ∧ (webhookPost testVerify "tokA" 10 emptyStore ⟨[123, 125], none⟩).2.status = 400) :=
  ⟨rfl,
   webhook_bad_signature_no_state_change testVerify "tokA" 10 emptyStore
     ⟨[123, 125], none⟩ (Or.inl rfl)⟩

/-- Math.round of an integer value is that integer. -/
theorem jsMathRound_intCast (k : ℤ) : jsMathRound (k : ℚ) = k := by
  unfold jsMathRound
  rw [add_comm, Int.floor_add_int]
  norm_num

/-- Modelled from the spec: round(x, 2 decimals) — scale by 100, round to
the nearest integer, scale back. Stated from the spec wording to compare
with the fee computation in calculatePricing. -/
def specRound2 (x : ℚ) : ℚ :=
  (jsMathRound (x * 100) : ℚ) / 100

/-- The closed form of calculatePricing: on integer quantities the rounding
in the fee is exact, so fee = 8(f+2m)/100 and total = subtotal + fee. -/
theorem calculatePricing_eq (f m : ℤ) :
    calculatePricing f m =
      ⟨(f : ℚ) * 1 + (m : ℚ) * 2,
       ((8 * (f + 2 * m) : ℤ) : ℚ) / 100,
       (f : ℚ) * 1 + (m : ℚ) * 2 + ((8 * (f + 2 * m) : ℤ) : ℚ) / 100⟩ := by
  have h8 : ((f : ℚ) * 1 + (m : ℚ) * 2) * (8 / 100) * 100 = ((8 * (f + 2 * m) : ℤ) : ℚ) := by
    push_cast
    ring
  simp only [calculatePricing, FEMALE_TICKET_PRICE, MALE_TICKET_PRICE, FEE_PERCENTAGE]
  rw [h8, jsMathRound_intCast]

/-- C5: for non-negative integer quantities with at least one positive, the
pricing calculator satisfies the spec formulas — subtotal f·1 + m·2, fee =
round(subtotal · 0.08, 2 decimals), total = subtotal + fee, minor units =
round(total · 100) — and the exact closed forms fee = 8(f+2m)/100 and
minor units = 108(f+2m). -/
theorem pricing_formula_and_cents (f m : ℤ) (hf : 0 ≤ f) (hm : 0 ≤ m)
    (hpos : 0 < f ∨ 0 < m) :
    (calculatePricing f m).subtotal = (f : ℚ) * 1 + (m : ℚ) * 2
    ∧ (calculatePricing f m).fee = specRound2 ((calculatePricing f m).subtotal * (8 / 100))
    ∧ (calculatePricing f m).total
        = (calculatePricing f m).subtotal + (calculatePricing f m).fee
    ∧ dollarsToCents (calculatePricing f m).total
        = jsMathRound ((calculatePricing f m).total * 100)
    ∧ (calculatePricing f m).fee = ((8 * (f + 2 * m) : ℤ) : ℚ) / 100
    ∧ dollarsToCents (calculatePricing f m).total = 108 * (f + 2 * m) := by
  have h8 : ((f : ℚ) * 1 + (m : ℚ) * 2) * (8 / 100) * 100 = ((8 * (f + 2 * m) : ℤ) : ℚ) := by
    push_cast
    ring
  have h108 : ((f : ℚ) * 1 + (m : ℚ) * 2 + ((8 * (f + 2 * m) : ℤ) : ℚ) / 100) * 100
      = ((108 * (f + 2 * m) : ℤ) : ℚ) := by
    push_cast
    ring
  rw [calculatePricing_eq f m]
  refine ⟨rfl, ?_, rfl, rfl, rfl, ?_⟩
  · show ((8 * (f + 2 * m) : ℤ) : ℚ) / 100 = specRound2 (((f : ℚ) * 1 + (m : ℚ) * 2) * (8 / 100))
    unfold specRound2
    rw [h8, jsMathRound_intCast]
  · show dollarsToCents ((f : ℚ) * 1 + (m : ℚ) * 2 + ((8 * (f + 2 * m) : ℤ) : ℚ) / 100)
      = 108 * (f + 2 * m)
    unfold dollarsToCents
    rw [h108, jsMathRound_intCast]

/-- C5 witness: quantities (2, 1) give subtotal 4, fee 32/100 = 0.32, total
432/100 = 4.32 and 432 minor units. -/
theorem pricing_formula_and_cents_witness :
    ((0 : ℤ) ≤ 2 ∧ (0 : ℤ) ≤ 1 ∧ ((0 : ℤ) < 2 ∨ (0 : ℤ) < 1))
    ∧ ((calculatePricing 2 1).subtotal = ((2 : ℤ) : ℚ) * 1 + ((1 : ℤ) : ℚ) * 2
      ∧ (calculatePricing 2 1).fee
          = specRound2 ((calculatePricing 2 1).subtotal * (8 / 100))
      ∧ (calculatePricing 2 1).total
          = (calculatePricing 2 1).subtotal + (calculatePricing 2 1).fee
      ∧ dollarsToCents (calculatePricing 2 1).total
          = jsMathRound ((calculatePricing 2 1).total * 100)
      ∧ (calculatePricing 2 1).fee = ((8 * (2 + 2 * 1) : ℤ) : ℚ) / 100
      ∧ dollarsToCents (calculatePricing 2 1).total = 108 * (2 + 2 * 1))
    ∧ (((2 : ℤ) : ℚ) * 1 + ((1 : ℤ) : ℚ) * 2 = 4
      ∧ ((8 * (2 + 2 * 1) : ℤ) : ℚ) / 100 = 32 / 100
      ∧ (108 : ℤ) * (2 + 2 * 1) = 432) :=
  ⟨⟨by decide, by decide, Or.inl (by decide)⟩,
   pricing_formula_and_cents 2 1 (by decide) (by decide) (Or.inl (by decide)),
   by norm_num, by norm_num, by decide⟩

/-- C6: a create-intent request with both quantities zero is rejected with a
400 validation reply carrying a non-empty details list, and the external
processor is never called, whatever the language tag and whatever the
processor would have answered. -/
theorem checkout_zero_quantities_rejected (stripeCreate : Option (String × String))
    (lang : Option String) :
    (checkoutCreateIntent stripeCreate ⟨0, 0, lang⟩).1 = none
    ∧ (checkoutCreateIntent stripeCreate ⟨0, 0, lang⟩).2.status = 400
    ∧ ∃ details, (checkoutCreateIntent stripeCreate ⟨0, 0, lang⟩).2.body
        = CheckoutBody.validationFailed details ∧ details ≠ [] := by
  have h1 : ¬((0 : ℤ) < 0) := by decide
  have h2 : ¬((0 : ℤ) > 0) := by decide
  rcases lang with _ | l
  · have hres : checkoutCreateIntent stripeCreate ⟨0, 0, none⟩
        = (none, ⟨400, CheckoutBody.validationFailed
            [⟨"", "At least one ticket must be selected"⟩]⟩) := rfl
    rw [hres]
    exact ⟨rfl, rfl, [⟨"", "At least one ticket must be selected"⟩], rfl, by decide⟩
  · by_cases hl : l = "en" ∨ l = "es" ∨ l = "pt-BR"
    · have hres : checkoutCreateIntent stripeCreate ⟨0, 0, some l⟩
          = (none, ⟨400, CheckoutBody.validationFailed
              [⟨"", "At least one ticket must be selected"⟩]⟩) := by
        unfold checkoutCreateIntent createIntentSchemaParse
        simp [hl, h1, h2]
      rw [hres]
      exact ⟨rfl, rfl, [⟨"", "At least one ticket must be selected"⟩], rfl, by decide⟩
    · have hres : checkoutCreateIntent stripeCreate ⟨0, 0, some l⟩
          = (none, ⟨400, CheckoutBody.validationFailed
              [⟨"language", "Invalid enum value"⟩]⟩) := by
        unfold checkoutCreateIntent createIntentSchemaParse
        simp [hl, h1, h2]
      rw [hres]
      exact ⟨rfl, rfl, [⟨"language", "Invalid enum value"⟩], rfl, by decide⟩

/-- A fixture QR renderer that always succeeds. -/
def renderFix : String → Option String :=
  fun token => some ("data:image/png;base64," ++ token)

/-- C7 counterexample: the identifier "abc" is unknown to the empty store,
yet the order query endpoint answers 400 Invalid PaymentIntent ID format,
not a 200 pending reply. -/
theorem order_query_unknown_id_counterexample :
    getOrderByPaymentIntentId emptyStore "abc" = none
    ∧ (ordersGetQr renderFix emptyStore "abc").2.status = 400
    ∧ (ordersGetQr renderFix emptyStore "abc").2
        ≠ (⟨200, OrderQrBody.pending⟩ : Reply OrderQrBody) :=
  ⟨rfl, rfl, by decide⟩

/-- C7 amended: for every identifier that passes the surface-format check
(starts with "pi_") and has no Order in the store, the order query endpoint
answers 200 with status pending and leaves the store unchanged. -/
theorem order_query_unknown_wellformed_id_pending
    (render : String → Option String) (s : StoreState) (paymentIntentId : String)
    (hfmt : strStarts paymentIntentId "pi_" = true)
    (hmiss : getOrderByPaymentIntentId s paymentIntentId = none) :
    ordersGetQr render s paymentIntentId = (s, ⟨200, OrderQrBody.pending⟩) := by
  have hne : ¬(paymentIntentId = "") := by
    intro h
    rw [h] at hfmt
    simp [strStarts, charsStart] at hfmt
  unfold ordersGetQr
  simp [hfmt, hne, hmiss]

/-- C7 amended witness: the well-formed unknown identifier pi_missing against
the empty store. -/
theorem order_query_unknown_wellformed_id_pending_witness :
    (strStarts "pi_missing" "pi_" = true
      ∧ getOrderByPaymentIntentId emptyStore "pi_missing" = none)
    ∧ ordersGetQr renderFix emptyStore "pi_missing"
        = (emptyStore, ⟨200, OrderQrBody.pending⟩) :=
  ⟨⟨by decide, rfl⟩,
   order_query_unknown_wellformed_id_pending renderFix emptyStore "pi_missing"
     (by decide) rfl⟩

/-- C8: from a state whose orders map has pairwise-distinct keys, saveOrder
and markPaymentIntentProcessed preserve that invariant (the two query
operations do not change state at all), after a saveOrder every key still
holds at most one entry, and saveOrder is an upsert: the saved key reads
back the saved order and every other key is unchanged. -/
theorem store_at_most_one_order_per_id (s : StoreState) (o : Order) (pid : String)
    (h : StoreInv s) :
    StoreInv (saveOrder s o)
    ∧ StoreInv (markPaymentIntentProcessed s pid)
    ∧ (markPaymentIntentProcessed s pid).orders = s.orders
    ∧ (∀ k, keyCount (saveOrder s o).orders k ≤ 1)
    ∧ getOrderByPaymentIntentId (saveOrder s o) o.paymentIntentId = some o
    ∧ (∀ k, k ≠ o.paymentIntentId →
        getOrderByPaymentIntentId (saveOrder s o) k = getOrderByPaymentIntentId s k) := by
  refine ⟨nodup_keys_mapSet s.orders o.paymentIntentId o h, h, rfl, ?_,
    mapGet_mapSet_self s.orders o.paymentIntentId o,
    fun k hk => mapGet_mapSet_ne s.orders o.paymentIntentId k o hk⟩
  intro k
  exact keyCount_le_one_of_nodup _ k (nodup_keys_mapSet s.orders o.paymentIntentId o h)

/-- A fixture order stored under pi_a. -/
def ordA : Order := ⟨"pi_a", "tok1", OrderStatus.valid, 1, some 1, some 0⟩

/-- A second fixture order for the same identifier pi_a (the upsert case). -/
def ordB : Order := ⟨"pi_a", "tok2", OrderStatus.valid, 2, some 0, some 2⟩

/-- C8 witness: a store already holding pi_a, updated at the same key. -/
theorem store_at_most_one_order_per_id_witness :
    StoreInv (⟨[("pi_a", ordA)], []⟩ : StoreState)
    ∧ (StoreInv (saveOrder ⟨[("pi_a", ordA)], []⟩ ordB)
      ∧ StoreInv (markPaymentIntentProcessed ⟨[("pi_a", ordA)], []⟩ "pi_b")
      ∧ (markPaymentIntentProcessed ⟨[("pi_a", ordA)], []⟩ "pi_b").orders
          = (⟨[("pi_a", ordA)], []⟩ : StoreState).orders
      ∧ (∀ k, keyCount (saveOrder ⟨[("pi_a", ordA)], []⟩ ordB).orders k ≤ 1)
      ∧ getOrderByPaymentIntentId (saveOrder ⟨[("pi_a", ordA)], []⟩ ordB)
          ordB.paymentIntentId = some ordB
      ∧ (∀ k, k ≠ ordB.paymentIntentId →
          getOrderByPaymentIntentId (saveOrder ⟨[("pi_a", ordA)], []⟩ ordB) k
            = getOrderByPaymentIntentId ⟨[("pi_a", ordA)], []⟩ k)) :=
  ⟨by decide,
   store_at_most_one_order_per_id ⟨[("pi_a", ordA)], []⟩ ordB "pi_b" (by decide)⟩

/-- C9: for a not-yet-processed identifier the handler still creates the
Order even when the metadata lacks the femaleQty or maleQty key or carries
an empty string there; the affected quantity field defaults to 0. -/
theorem webhook_missing_metadata_defaults_zero (qrToken : String) (now : Nat)
    (s : StoreState) (pi : PaymentIntent)
    (h : isPaymentIntentProcessed s pi.id = false) :
    getOrderByPaymentIntentId (handlePaymentIntentSucceeded qrToken now s pi) pi.id
        = some (webhookOrder qrToken now pi)
    ∧ ((pi.metadata.femaleQty = none ∨ pi.metadata.femaleQty = some "") →
        (webhookOrder qrToken now pi).femaleQty = some 0)
    ∧ ((pi.metadata.maleQty = none ∨ pi.metadata.maleQty = some "") →
        (webhookOrder qrToken now pi).maleQty = some 0) := by
  have h0 : parseIntJS "0" = some 0 := by decide
  refine ⟨?_, ?_, ?_⟩
  · rw [handle_not_processed qrToken now s pi h]
    exact mapGet_mapSet_self s.orders pi.id (webhookOrder qrToken now pi)
  · intro hf
    rcases hf with hf | hf <;> simp [webhookOrder, jsOrString, hf, h0]
  · intro hm
    rcases hm with hm | hm <;> simp [webhookOrder, jsOrString, hm, h0]

/-- A fixture payment intent whose metadata has no femaleQty key and an
empty maleQty value. -/
def piMissingMeta : PaymentIntent := ⟨"pi_meta", ⟨none, some ""⟩⟩

/-- C9 witness: the fixture intent with missing and empty metadata against
the empty store; both quantities default to 0. -/
theorem webhook_missing_metadata_defaults_zero_witness :
    (isPaymentIntentProcessed emptyStore piMissingMeta.id = false
      ∧ piMissingMeta.metadata.femaleQty = none
      ∧ piMissingMeta.metadata.maleQty = some "")
    ∧ (getOrderByPaymentIntentId
          (handlePaymentIntentSucceeded "tokM" 7 emptyStore piMissingMeta)
          piMissingMeta.id = some (webhookOrder "tokM" 7 piMissingMeta)
      ∧ ((piMissingMeta.metadata.femaleQty = none
            ∨ piMissingMeta.metadata.femaleQty = some "") →
          (webhookOrder "tokM" 7 piMissingMeta).femaleQty = some 0)
      ∧ ((piMissingMeta.metadata.maleQty = none
            ∨ piMissingMeta.metadata.maleQty = some "") →
          (webhookOrder "tokM" 7 piMissingMeta).maleQty = some 0)) :=
  ⟨⟨by decide, rfl, rfl⟩,
   webhook_missing_metadata_defaults_zero "tokM" 7 emptyStore piMissingMeta (by decide)⟩

/-- C10: the order query endpoint never changes the store: in every branch
(invalid format, pending, ready, render failure) the state it returns is the
state it was given. -/
theorem order_query_read_only (render : String → Option String)
    (s : StoreState) (paymentIntentId : String) :
    (ordersGetQr render s paymentIntentId).1 = s := by
  unfold ordersGetQr
  split
  · rfl
  · split
    · rfl
    · split <;> rfl

/-- The instrumented handler computes the same final store as the plain one. -/
theorem handleTrace_fst (qrToken : String) (now : Nat) (s : StoreState)
    (pi : PaymentIntent) :
    (handlePaymentIntentSucceededTrace qrToken now s pi).1
      = handlePaymentIntentSucceeded qrToken now s pi := by
  by_cases h : isPaymentIntentProcessed s pi.id = true
  · simp [handlePaymentIntentSucceededTrace, handlePaymentIntentSucceeded, h]
  · have h₀ : isPaymentIntentProcessed s pi.id = false := by
      revert h
      cases isPaymentIntentProcessed s pi.id <;> simp
    simp [handlePaymentIntentSucceededTrace, handlePaymentIntentSucceeded, h₀]

/-- On a not-yet-processed identifier the instrumented handler performs
exactly: idempotency check, mark processed, token generation, order
creation, in that order. -/
theorem handleTrace_not_processed (qrToken : String) (now : Nat) (s : StoreState)
    (pi : PaymentIntent) (h : isPaymentIntentProcessed s pi.id = false) :
    (handlePaymentIntentSucceededTrace qrToken now s pi).2
      = [WebhookAction.checkProcessed pi.id false,
         WebhookAction.markProcessed pi.id,
         WebhookAction.generateToken,
         WebhookAction.createOrder pi.id] := by
  simp [handlePaymentIntentSucceededTrace, h]

/-- C4: for a not-yet-processed identifier, every occurrence of the
mark-processed step in the handler's action trace comes strictly before
every occurrence of token generation and of order creation. -/
theorem webhook_mark_precedes_token_and_order (qrToken : String) (now : Nat)
    (s : StoreState) (pi : PaymentIntent)
    (h : isPaymentIntentProcessed s pi.id = false) :
    ∀ i j : Nat,
      (handlePaymentIntentSucceededTrace qrToken now s pi).2.get? i
          = some (WebhookAction.markProcessed pi.id) →
      ((handlePaymentIntentSucceededTrace qrToken now s pi).2.get? j
          = some WebhookAction.generateToken
        ∨ (handlePaymentIntentSucceededTrace qrToken now s pi).2.get? j
          = some (WebhookAction.createOrder pi.id)) →
      i < j := by
  rw [handleTrace_not_processed qrToken now s pi h]
  intro i j hi hj
  match i, hi with
  | 1, _ =>
    match j, hj with
    | 0, hj => rcases hj with hj | hj <;> simp at hj
    | 1, hj => rcases hj with hj | hj <;> simp at hj
    | 2, _ => omega
    | 3, _ => omega
    | j + 4, hj => rcases hj with hj | hj <;> simp at hj
  | 0, hi => simp at hi
  | 2, hi => simp at hi
  | 3, hi => simp at hi
  | i + 4, hi => simp at hi

/-- C4 witness: the fixture event against the empty store; the mark step is
at index 1, token generation at index 2, order creation at index 3. -/
theorem webhook_mark_precedes_token_and_order_witness :
    (isPaymentIntentProcessed emptyStore testEvent.data.object.id = false
      ∧ (handlePaymentIntentSucceededTrace "tokA" 10 emptyStore testEvent.data.object).2.get? 1
          = some (WebhookAction.markProcessed testEvent.data.object.id)
      ∧ (handlePaymentIntentSucceededTrace "tokA" 10 emptyStore testEvent.data.object).2.get? 2
          = some WebhookAction.generateToken)
    ∧ (1 : Nat) < 2 :=
  ⟨⟨by decide, by decide, by decide⟩,
   webhook_mark_precedes_token_and_order "tokA" 10 emptyStore testEvent.data.object
     (by decide) 1 2 (by decide) (Or.inl (by decide))⟩
